import Mathlib

/-!
Verification of the credential-lifecycle, attachment-storage, and
activity-ledger core of the QFolders application (src/app.py), via a
shallow embedding: Python strings become `List Char`, byte buffers become
`List Nat`, the remote collaborators (auth provider, data store, blob
store) become explicit oracle parameters, and each operation additionally
returns the trace of blob-store calls it performed.
-/

/-- ASCII lowercasing, modelling Python `str.lower()` on the ASCII strings
this application handles. -/
def pyLower (s : List Char) : List Char := s.map Char.toLower

/-- The part of `s` after the last occurrence of `sep`, modelling Python
`s.rsplit(sep, 1)[1]` when `sep` occurs in `s`. -/
def afterLastSep (sep : Char) (s : List Char) : List Char :=
  (s.reverse.takeWhile (fun c => c != sep)).reverse

/-- `ALLOWED_EXTENSIONS = {'pdf'}` (src/app.py line 29). -/
def ALLOWED_EXTENSIONS : List (List Char) := ["pdf".toList]

/-- `MAX_FILE_SIZE = 10 * 1024 * 1024` (src/app.py line 30). -/
def MAX_FILE_SIZE : Nat := 10 * 1024 * 1024

/-- `allowed_file(filename)` (src/app.py lines 145-146):
`'.' in filename and filename.rsplit('.', 1)[1].lower() in ALLOWED_EXTENSIONS`. -/
def allowed_file (filename : List Char) : Bool :=
  filename.contains '.' && ALLOWED_EXTENSIONS.contains (pyLower (afterLastSep '.' filename))

/-- One call to the external blob store ("question-pdfs" bucket):
`client.storage.from_(bucket).upload(...)` or `.remove([...])`. -/
inductive StorageOp where
  | put (key : List Char)
  | remove (key : List Char)
deriving DecidableEq, Repr

/-- A file arriving with the request: its declared filename and content bytes. -/
structure UploadedFile where
  filename : List Char
  content : List Nat
deriving DecidableEq, Repr

/-- The dict returned by `upload_file_to_supabase` on success
(src/app.py lines 171-175). -/
structure FileInfo where
  file_name : List Char
  file_path : List Char
  file_size : Nat
deriving DecidableEq, Repr

/-- The storage key built at src/app.py line 154:
`f"{question_id}_{uuid.uuid4().hex}.{file_extension}"`.  `rand` stands for
`uuid.uuid4().hex`, a 32-character hex string. -/
def unique_filename (question_id rand ext : List Char) : List Char :=
  question_id ++ '_' :: (rand ++ '.' :: ext)

/-- `upload_file_to_supabase(file, question_id)` (src/app.py lines 149-180).
`rand` is the drawn `uuid.uuid4().hex`; `putOk` says whether the blob store's
`upload` call succeeds (an exception is caught and turns the result into
`None`).  If the filename has no dot, `rsplit('.', 1)[1]` raises IndexError
before any storage call, caught by the same handler.  Besides the result we
return the list of blob-store calls performed. -/
def upload_file_to_supabase (file : UploadedFile) (question_id rand : List Char)
    (putOk : Bool) : Option FileInfo × List StorageOp :=
  if file.filename.contains '.' then
    let ext := pyLower (afterLastSep '.' file.filename)
    let key := unique_filename question_id rand ext
    if putOk then
      (some ⟨file.filename, key, file.content.length⟩, [StorageOp.put key])
    else
      (none, [StorageOp.put key])
  else
    (none, [])

/-- `delete_file_from_supabase(file_path)` (src/app.py lines 183-192): attempts
the blob-store `remove` and returns `True` on success, `False` when the call
raised (the exception is caught and logged). -/
def delete_file_from_supabase (file_path : List Char) (removeOk : Bool) :
    Bool × List StorageOp :=
  (removeOk, [StorageOp.remove file_path])

/-- Outcome of the PDF-handling branch shared by `folder_detail`,
`add_question_to_folder` and `update_question`. -/
inductive UploadBranchResult where
  | updated (info : FileInfo)
  | uploadFailed
  | tooLarge
  | unsupportedType
  | skipped
deriving DecidableEq, Repr

/-- The PDF-upload branch of `folder_detail` (src/app.py lines 376-399):
if a file with a non-empty filename is present and `allowed_file` passes, the
size is checked against `MAX_FILE_SIZE`; only then is the blob store
contacted; otherwise a warning is flashed and no blob-store call is made. -/
def folder_detail_pdf (file : Option UploadedFile) (question_id rand : List Char)
    (putOk : Bool) : UploadBranchResult × List StorageOp :=
  match file with
  | none => (UploadBranchResult.skipped, [])
  | some f =>
    if f.filename = [] then (UploadBranchResult.skipped, [])
    else if allowed_file f.filename then
      if f.content.length ≤ MAX_FILE_SIZE then
        match upload_file_to_supabase f question_id rand putOk with
        | (some info, ops) => (UploadBranchResult.updated info, ops)
        | (none, ops) => (UploadBranchResult.uploadFailed, ops)
      else (UploadBranchResult.tooLarge, [])
    else (UploadBranchResult.unsupportedType, [])

/-- The PDF-replacement branch of `update_question` (src/app.py lines 509-539):
after the type and size checks pass, the current row's `pdf_file_path` is
looked up (`old_path`); if present, `delete_file_from_supabase` is called on it
FIRST, and only afterwards is `upload_file_to_supabase` called for the new
content.  `removeOk`/`putOk` are the blob store's responses. -/
def update_question_pdf (old_path : Option (List Char)) (f : UploadedFile)
    (question_id rand : List Char) (removeOk putOk : Bool) :
    UploadBranchResult × List StorageOp :=
  if f.filename = [] then (UploadBranchResult.skipped, [])
  else if allowed_file f.filename then
    if f.content.length ≤ MAX_FILE_SIZE then
      let delOps : List StorageOp :=
        match old_path with
        | some p => (delete_file_from_supabase p removeOk).2
        | none => []
      match upload_file_to_supabase f question_id rand putOk with
      | (some info, ops) => (UploadBranchResult.updated info, delOps ++ ops)
      | (none, ops) => (UploadBranchResult.uploadFailed, delOps ++ ops)
    else (UploadBranchResult.tooLarge, [])
  else (UploadBranchResult.unsupportedType, [])

/-- Outcome of `delete_question`. -/
inductive DeleteOutcome where
  | notFound
  | deleted
deriving DecidableEq, Repr

/-- `delete_question(question_id)` (src/app.py lines 698-721): the question row
is fetched (`q` is `none` when it does not exist; `some old_path` carries its
`pdf_file_path` column).  If a blob path is present it is removed via
`delete_file_from_supabase`, whose Boolean result is ignored; the row is then
deleted unconditionally.  We return the outcome, the blob-store calls, and
whether the row was deleted. -/
def delete_question (q : Option (Option (List Char))) (removeOk : Bool) :
    DeleteOutcome × List StorageOp × Bool :=
  match q with
  | none => (DeleteOutcome.notFound, [], false)
  | some old_path =>
    match old_path with
    | some p => (DeleteOutcome.deleted, (delete_file_from_supabase p removeOk).2, true)
    | none => (DeleteOutcome.deleted, [], true)

/-- One client session: the Flask `session` dict's `access_token`,
`refresh_token` and `user` entries (`none` = key absent). -/
structure Session where
  access_token : Option (List Char)
  refresh_token : Option (List Char)
  user : Option (List Char)
deriving DecidableEq, Repr

/-- `refresh_jwt_if_needed()` (src/app.py lines 90-112).  `refreshResult`
models `client.auth.refresh_session(refresh_token)`: `some (a, r)` is a
response carrying new tokens, `none` is a raised auth error.  Returned:
the session as left in the store, the function's Boolean result, and the
number of network calls made to the auth provider. -/
def refresh_jwt_if_needed (s : Session)
    (refreshResult : Option (List Char × List Char)) : Session × Bool × Nat :=
  if s.access_token.isNone || s.refresh_token.isNone then
    (s, false, 0)
  else
    match refreshResult with
    | some (newAccess, newRefresh) =>
      ({ s with access_token := some newAccess, refresh_token := some newRefresh },
       true, 1)
    | none =>
      ({ access_token := none, refresh_token := none, user := none }, false, 1)

/-- `track_contribution(user_id, client)` (src/app.py lines 51-87), for the
fixed key (user_id, today).  `row` is the count in the existing contributions
row for that key, or `none`.  If the row is absent, `.single()` raises inside
the update payload, and the handler tries an insert; `interfere` says whether a
concurrent request has inserted the row (count 1) by the time our insert runs,
making the insert fail on the unique key — that failure is caught by the inner
handler, which only logs and passes.  Returned: the final row state and
whether an exception propagated to the caller (never). -/
def track_contribution (row : Option Nat) (interfere : Bool) : Option Nat × Bool :=
  match row with
  | some c => (some (c + 1), false)
  | none =>
    let rowAtInsert : Option Nat := if interfere then some 1 else none
    match rowAtInsert with
    | some c => (some c, false)
    | none => (some 1, false)

/-- `level` assignment of `get_contributions` (src/app.py lines 972-989). -/
def contribution_level (count : Nat) : Nat :=
  if count = 0 then 0
  else if count ≤ 1 then 1
  else if count ≤ 4 then 2
  else if count ≤ 7 then 3
  else if count ≤ 10 then 4
  else if count ≤ 14 then 5
  else if count ≤ 17 then 6
  else if count ≤ 21 then 7
  else 8

/-- One element of the `contribution_data` list (src/app.py lines 991-995).
Dates are modelled as day numbers. -/
structure ContributionEntry where
  date : Nat
  count : Nat
  level : Nat
deriving DecidableEq, Repr

/-- The entry built for day `d`: `count = contribution_dict.get(date_str, 0)`
(src/app.py line 969), level from the bucket table. -/
def contribution_entry (lookup : Nat → Option Nat) (d : Nat) : ContributionEntry :=
  ⟨d, (lookup d).getD 0, contribution_level ((lookup d).getD 0)⟩

/-- The day loop of `get_contributions` (src/app.py lines 964-997):
`while current_date <= end_date`, appending one entry per day and stepping one
day at a time.  `lookup` is the dict built from the user's contribution rows. -/
def get_contributions (lookup : Nat → Option Nat) (current end_date : Nat) :
    List ContributionEntry :=
  if h : current ≤ end_date then
    contribution_entry lookup current :: get_contributions lookup (current + 1) end_date
  else []
termination_by end_date + 1 - current

/-- Modelled from the spec: the level policy table exactly as §4.3 states it
("0; 1; 2–4; 5–7; 8–10; 11–14; 15–17; 18–21; 22+"), written independently of
the code, to be compared with `contribution_level`. -/
def spec_level (count : Nat) : Nat :=
  if count = 0 then 0
  else if count = 1 then 1
  else if 2 ≤ count ∧ count ≤ 4 then 2
  else if 5 ≤ count ∧ count ≤ 7 then 3
  else if 8 ≤ count ∧ count ≤ 10 then 4
  else if 11 ≤ count ∧ count ≤ 14 then 5
  else if 15 ≤ count ∧ count ≤ 17 then 6
  else if 18 ≤ count ∧ count ≤ 21 then 7
  else 8

/-! ### Helper lemmas -/

/-- A filename accepted by `allowed_file` contains a dot. -/
lemma allowed_file_contains_dot (fn : List Char) (h : allowed_file fn = true) :
    fn.contains '.' = true := by
  unfold allowed_file at h
  cases hc : fn.contains '.' with
  | false => rw [hc, Bool.false_and] at h; simp at h
  | true => rfl

/-- Membership form of `allowed_file_contains_dot`. -/
lemma allowed_file_mem_dot (fn : List Char) (h : allowed_file fn = true) :
    '.' ∈ fn := by
  simpa using allowed_file_contains_dot fn h

/-- Storage keys built from equal-length random components and the same
extension agree only when the random components agree. -/
lemma unique_filename_inj (q1 q2 r1 r2 e : List Char)
    (hlen : r1.length = r2.length)
    (h : unique_filename q1 r1 e = unique_filename q2 r2 e) : r1 = r2 := by
  unfold unique_filename at h
  have htl : ('_' :: (r1 ++ '.' :: e)).length = ('_' :: (r2 ++ '.' :: e)).length := by
    simp [hlen]
  have h2 := List.append_inj_right' h htl
  have h3 : r1 ++ '.' :: e = r2 ++ '.' :: e := by
    injection h2
  exact List.append_inj_left' h3 rfl

set_option maxHeartbeats 1000000 in
/-- The code's bucket function agrees with the spec's policy table. -/
lemma contribution_level_eq_spec (c : Nat) : contribution_level c = spec_level c := by
  unfold contribution_level spec_level
  split_ifs <;> omega

/-- The day loop produces exactly the entries for the consecutive days
starting at `s`. -/
lemma get_contributions_eq (lookup : Nat → Option Nat) :
    ∀ (n s e : Nat), e + 1 - s = n →
      get_contributions lookup s e = (List.range' s n).map (contribution_entry lookup) := by
  intro n
  induction n with
  | zero =>
    intro s e h
    rw [get_contributions, dif_neg (by omega)]
    simp
  | succ n ih =>
    intro s e h
    rw [get_contributions, dif_pos (by omega), ih (s + 1) e (by omega)]
    simp [List.range'_succ]

/-! ### Claim theorems -/

/-- Claim C1, counterexample: with an existing attachment `old.pdf` and a new
file passing the checks, `update_question` issues the blob-store remove of the
old key FIRST and then the upload, and even when the upload fails the old blob
has already been removed — refuting upload-before-old-delete ordering. -/
theorem replace_order_counterexample :
    (update_question_pdf (some "old.pdf".toList) ⟨"new.pdf".toList, [0, 1, 2]⟩
        "q1".toList "r0".toList true false).1 = UploadBranchResult.uploadFailed ∧
    (update_question_pdf (some "old.pdf".toList) ⟨"new.pdf".toList, [0, 1, 2]⟩
        "q1".toList "r0".toList true false).2 =
      [StorageOp.remove "old.pdf".toList,
       StorageOp.put (unique_filename "q1".toList "r0".toList "pdf".toList)] := by
  decide

/-- Claim C1 (amended): on replace, when the record already has an attachment
and the new file passes the type and size checks, the old attachment's blob is
deleted FIRST and only then is the new upload attempted; the old blob is
removed regardless of whether the upload succeeds. -/
theorem replace_deletes_old_before_upload (old : List Char) (f : UploadedFile)
    (qid rand : List Char) (removeOk putOk : Bool)
    (hfn : f.filename ≠ [])
    (hall : allowed_file f.filename = true)
    (hsz : f.content.length ≤ MAX_FILE_SIZE) :
    (update_question_pdf (some old) f qid rand removeOk putOk).2 =
      [StorageOp.remove old,
       StorageOp.put (unique_filename qid rand (pyLower (afterLastSep '.' f.filename)))] := by
  have hmem := allowed_file_mem_dot f.filename hall
  cases putOk <;>
    simp [update_question_pdf, upload_file_to_supabase, delete_file_from_supabase,
          hfn, hall, hsz, hmem]

/-- Claim C1 witness: concrete replace run exercising the amended ordering. -/
theorem replace_deletes_old_before_upload_witness :
    (update_question_pdf (some "old.pdf".toList) ⟨"new.pdf".toList, [0, 1, 2]⟩
        "q1".toList "r0".toList true true).2 =
      [StorageOp.remove "old.pdf".toList,
       StorageOp.put (unique_filename "q1".toList "r0".toList
         (pyLower (afterLastSep '.' ("new.pdf".toList))))] :=
  replace_deletes_old_before_upload "old.pdf".toList ⟨"new.pdf".toList, [0, 1, 2]⟩
    "q1".toList "r0".toList true true (by decide) (by decide) (by decide)

/-- A populated session, as left by `login`. -/
def sess0 : Session :=
  ⟨some "tokA".toList, some "tokR".toList, some "alice".toList⟩

/-- Claim C2, counterexample: for a session holding both tokens (in particular
one whose access token is still valid — the code never inspects validity),
`refresh_jwt_if_needed` performs one network call to the auth provider (not
zero) and returns a session whose tokens have been replaced (not unchanged). -/
theorem ensure_valid_counterexample :
    (refresh_jwt_if_needed sess0 (some ("tokA2".toList, "tokR2".toList))).2.2 = 1 ∧
    (refresh_jwt_if_needed sess0 (some ("tokA2".toList, "tokR2".toList))).1 ≠ sess0 := by
  decide

/-- Claim C2 (amended): `refresh_jwt_if_needed` never checks whether the
access token is still valid; for every session with both tokens present it
performs exactly one refresh call to the auth provider, and on success it
returns the session with both tokens replaced by the provider's new tokens
(user identity unchanged) rather than the session unchanged. -/
theorem ensure_valid_always_refreshes (s : Session) (newAccess newRefresh : List Char)
    (ha : s.access_token.isSome = true) (hr : s.refresh_token.isSome = true) :
    refresh_jwt_if_needed s (some (newAccess, newRefresh)) =
      ({ s with access_token := some newAccess, refresh_token := some newRefresh },
       true, 1) := by
  cases s with
  | mk a r u =>
    cases a with
    | none => simp at ha
    | some x =>
      cases r with
      | none => simp at hr
      | some y => rfl

/-- Claim C2 witness: the amended behaviour at a concrete session. -/
theorem ensure_valid_always_refreshes_witness :
    refresh_jwt_if_needed sess0 (some ("tokA2".toList, "tokR2".toList)) =
      ({ sess0 with access_token := some "tokA2".toList,
                    refresh_token := some "tokR2".toList }, true, 1) :=
  ensure_valid_always_refreshes sess0 "tokA2".toList "tokR2".toList
    (by decide) (by decide)

/-- Claim C3, counterexample: when no row exists at select time and a
concurrent request inserts the row (count 1) before our insert runs, the
insert's unique-key failure is swallowed by the inner handler and the function
returns with the row still at count 1 — the activity is NOT re-applied as an
update (which would have left count 2). -/
theorem record_activity_counterexample :
    (track_contribution none true).1 = some 1 ∧
    (track_contribution none true).1 ≠ some 2 := by
  decide

/-- Claim C3 (amended): `track_contribution` increments an existing row by
exactly 1, or creates the row with count 1 if absent, and never propagates an
error; but an insert failure caused by a now-existing row is merely logged and
swallowed — the code does not fall through to an update, so that activity is
lost (the now-existing row's count is left unchanged at 1). -/
theorem record_activity_amended (row : Option Nat) (interfere : Bool) :
    (track_contribution row interfere).2 = false ∧
    (∀ c, row = some c → track_contribution row interfere = (some (c + 1), false)) ∧
    (row = none → interfere = false → track_contribution row interfere = (some 1, false)) ∧
    (row = none → interfere = true → track_contribution row interfere = (some 1, false)) := by
  cases row <;> cases interfere <;> simp [track_contribution]

/-- Claim C3 witness: incrementing an existing row with count 3 yields 4. -/
theorem record_activity_amended_witness :
    track_contribution (some 3) false = (some 4, false) :=
  (record_activity_amended (some 3) false).2.1 3 rfl

/-- Claim C4: over the inclusive day range `[s, e]` the contribution query
returns exactly one entry per calendar day, in ascending date order, with
zero-count days filled in (entry `i` is for day `s + i`, its count defaulting
to 0 when no row exists), and each entry's level is the fixed bucket of its
count; the code's bucket function equals the spec's table (0↦0, 1↦1, 2–4↦2,
5–7↦3, 8–10↦4, 11–14↦5, 15–17↦6, 18–21↦7, 22+↦8). -/
theorem contributions_range_spec (lookup : Nat → Option Nat) (s e : Nat)
    (hse : s ≤ e) :
    (get_contributions lookup s e).length = e - s + 1 ∧
    (∀ i, i < e - s + 1 →
      (get_contributions lookup s e)[i]? =
        some ⟨s + i, (lookup (s + i)).getD 0,
              contribution_level ((lookup (s + i)).getD 0)⟩) ∧
    (∀ c, contribution_level c = spec_level c) := by
  have key := get_contributions_eq lookup (e + 1 - s) s e rfl
  refine ⟨?_, ?_, contribution_level_eq_spec⟩
  · rw [key]
    simp
    omega
  · intro i hi
    rw [key]
    simp [List.getElem?_map, List.getElem?_range', (by omega : i < e + 1 - s),
          contribution_entry]

/-- Sample contribution rows: a single row with count 3 on day 1. -/
def sampleLookup : Nat → Option Nat := fun d => if d = 1 then some 3 else none

/-- Claim C4 witness: a 7-day window yields exactly 7 entries. -/
theorem contributions_range_spec_witness :
    (get_contributions sampleLookup 0 6).length = 6 - 0 + 1 :=
  (contributions_range_spec sampleLookup 0 6 (by decide)).1

/-- Claim C5: when the refresh attempt fails (the auth provider raises), the
handler clears all session fields — access token, refresh token, and user
identity — before reporting failure, and exactly one refresh call is made (no
automatic retry). -/
theorem refresh_failure_clears_session (s : Session)
    (ha : s.access_token.isSome = true) (hr : s.refresh_token.isSome = true) :
    refresh_jwt_if_needed s none = (⟨none, none, none⟩, false, 1) := by
  cases s with
  | mk a r u =>
    cases a with
    | none => simp at ha
    | some x =>
      cases r with
      | none => simp at hr
      | some y => rfl

/-- Claim C5 witness: the failing refresh at a concrete populated session. -/
theorem refresh_failure_clears_session_witness :
    refresh_jwt_if_needed sess0 none = (⟨none, none, none⟩, false, 1) :=
  refresh_failure_clears_session sess0 (by decide) (by decide)

/-- Claim C6: an upload whose declared filename has no dot, or whose extension
is outside the allow-list, is rejected as unsupported and makes zero
blob-store calls. -/
theorem upload_disallowed_type (f : UploadedFile) (qid rand : List Char)
    (putOk : Bool) (hfn : f.filename ≠ [])
    (hbad : f.filename.contains '.' = false ∨
      ALLOWED_EXTENSIONS.contains (pyLower (afterLastSep '.' f.filename)) = false) :
    folder_detail_pdf (some f) qid rand putOk =
      (UploadBranchResult.unsupportedType, []) := by
  have hall : allowed_file f.filename = false := by
    unfold allowed_file
    rcases hbad with h | h
    · rw [h, Bool.false_and]
    · rw [h, Bool.and_false]
  simp [folder_detail_pdf, hfn, hall]

/-- A disallowed upload: an executable. -/
def exeFile : UploadedFile := ⟨"virus.exe".toList, [1, 2]⟩

/-- Claim C6 witness: the `.exe` upload is rejected with no blob-store call. -/
theorem upload_disallowed_type_witness :
    folder_detail_pdf (some exeFile) "q1".toList "r0".toList true =
      (UploadBranchResult.unsupportedType, []) :=
  upload_disallowed_type exeFile "q1".toList "r0".toList true
    (by decide) (Or.inr (by decide))

/-- Claim C7: the size cap is the fixed 10 MiB; an allowed-type upload whose
content exceeds the cap fails as too large with zero blob-store calls, while
one within the cap passes the size check and proceeds to the blob store (its
trace is exactly the one `put` of the generated key). -/
theorem upload_size_policy (f : UploadedFile) (qid rand : List Char)
    (putOk : Bool) (hfn : f.filename ≠ [])
    (hall : allowed_file f.filename = true) :
    MAX_FILE_SIZE = 10 * 1024 * 1024 ∧
    (MAX_FILE_SIZE < f.content.length →
      folder_detail_pdf (some f) qid rand putOk = (UploadBranchResult.tooLarge, [])) ∧
    (f.content.length ≤ MAX_FILE_SIZE →
      (folder_detail_pdf (some f) qid rand putOk).2 =
        [StorageOp.put (unique_filename qid rand
          (pyLower (afterLastSep '.' f.filename)))]) := by
  have hmem := allowed_file_mem_dot f.filename hall
  refine ⟨rfl, ?_, ?_⟩
  · intro hgt
    simp [folder_detail_pdf, hfn, hall, Nat.not_le.mpr hgt]
  · intro hle
    cases putOk <;>
      simp [folder_detail_pdf, upload_file_to_supabase, hfn, hall, hle, hmem]

/-- A small allowed upload. -/
def pdfSmall : UploadedFile := ⟨"notes.pdf".toList, [1, 2, 3]⟩

/-- Claim C7 witness: the small PDF passes the size check and reaches the
blob store. -/
theorem upload_size_policy_witness :
    (folder_detail_pdf (some pdfSmall) "q1".toList "r0".toList true).2 =
      [StorageOp.put (unique_filename "q1".toList "r0".toList
        (pyLower (afterLastSep '.' pdfSmall.filename)))] :=
  (upload_size_policy pdfSmall "q1".toList "r0".toList true
    (by decide) (by decide)).2.2 (by decide)

/-- Claim C8: a successful upload's storage key is the owning record id plus
the fresh 32-character random component; two successful uploads (any owning
ids, same extension) whose random components differ receive distinct keys. -/
theorem upload_storage_key_unique (f1 f2 : UploadedFile) (q1 q2 r1 r2 : List Char)
    (putOk1 putOk2 : Bool) (i1 i2 : FileInfo)
    (hu1 : (upload_file_to_supabase f1 q1 r1 putOk1).1 = some i1)
    (hu2 : (upload_file_to_supabase f2 q2 r2 putOk2).1 = some i2)
    (hext : pyLower (afterLastSep '.' f1.filename) =
      pyLower (afterLastSep '.' f2.filename))
    (hl1 : r1.length = 32) (hl2 : r2.length = 32) (hne : r1 ≠ r2) :
    i1.file_path ≠ i2.file_path := by
  simp only [upload_file_to_supabase] at hu1 hu2
  split_ifs at hu1 with hd1 hp1
  all_goals simp at hu1
  split_ifs at hu2 with hd2 hp2
  all_goals simp at hu2
  intro hpath
  rw [← hu1, ← hu2] at hpath
  simp at hpath
  rw [hext] at hpath
  exact hne (unique_filename_inj q1 q2 r1 r2
    (pyLower (afterLastSep '.' f2.filename)) (hl1.trans hl2.symm) hpath)

/-- Two distinct 32-character hex draws. -/
def rand1 : List Char := "0123456789abcdef0123456789abcdef".toList

/-- A second, different 32-character hex draw. -/
def rand2 : List Char := "fedcba9876543210fedcba9876543210".toList

/-- The file info returned for the first draw. -/
def info1 : FileInfo :=
  ⟨"notes.pdf".toList, unique_filename "q1".toList rand1 "pdf".toList, 3⟩

/-- The file info returned for the second draw. -/
def info2 : FileInfo :=
  ⟨"notes.pdf".toList, unique_filename "q1".toList rand2 "pdf".toList, 3⟩

/-- Claim C8 witness: two uploads for the same record with different draws
yield distinct keys. -/
theorem upload_storage_key_unique_witness : info1.file_path ≠ info2.file_path :=
  upload_storage_key_unique pdfSmall pdfSmall "q1".toList "q1".toList rand1 rand2
    true true info1 info2 (by decide) (by decide) (by decide) (by decide)
    (by decide) (by decide)

/-- Claim C9: deleting a question removes its blob when one is present (and
nothing otherwise), the blob store's Boolean outcome is ignored — logged and
swallowed — and the question row is deleted in every case, including when the
blob removal fails. -/
theorem delete_question_swallows_blob_failure (p : List Char) (removeOk : Bool) :
    delete_question (some (some p)) removeOk =
      (DeleteOutcome.deleted, [StorageOp.remove p], true) ∧
    delete_question (some none) removeOk = (DeleteOutcome.deleted, [], true) :=
  ⟨rfl, rfl⟩

/-- Claim C10: a successful upload returns `file_name` equal to the declared
filename, `file_size` equal to the content length, and a `file_path` ending
in the lowercased extension of the declared filename; moreover the type check
accepts the filename exactly when its lowercased extension is in the
allow-list, so an upper-case `.PDF` is accepted and normalised. -/
theorem upload_success_fileinfo (f : UploadedFile) (qid rand : List Char)
    (hdot : f.filename.contains '.' = true) :
    (upload_file_to_supabase f qid rand true).1 =
      some ⟨f.filename,
            unique_filename qid rand (pyLower (afterLastSep '.' f.filename)),
            f.content.length⟩ ∧
    pyLower (afterLastSep '.' f.filename) <:+
      unique_filename qid rand (pyLower (afterLastSep '.' f.filename)) ∧
    (allowed_file f.filename = true ↔
      ALLOWED_EXTENSIONS.contains (pyLower (afterLastSep '.' f.filename)) = true) := by
  have hmem : '.' ∈ f.filename := by simpa using hdot
  refine ⟨?_, ?_, ?_⟩
  · simp [upload_file_to_supabase, hmem]
  · exact ⟨qid ++ '_' :: (rand ++ ['.']), by simp [unique_filename]⟩
  · simp [allowed_file, hdot, hmem]

/-- An upload with an upper-case extension. -/
def pdfUpper : UploadedFile := ⟨"Report.PDF".toList, [7, 7]⟩

/-- Claim C10 witness: the upper-case `.PDF` upload's returned record. -/
theorem upload_success_fileinfo_witness :
    (upload_file_to_supabase pdfUpper "q1".toList rand1 true).1 =
      some ⟨pdfUpper.filename,
            unique_filename "q1".toList rand1
              (pyLower (afterLastSep '.' pdfUpper.filename)),
            pdfUpper.content.length⟩ :=
  (upload_success_fileinfo pdfUpper "q1".toList rand1 (by decide)).1
